import Mathlib

/-!
Shallow embedding of the stealth-game pursuer core: the three.js vector
operations the code relies on, the vision cone (src/src/ai/VisionCone.ts),
the collision resolver (src/src/core/CollisionSystem.ts), the generic state
machine (src/src/ai/StateMachine.ts) and the pursuer AI
(src/src/entities/LouisAI.ts).  Machine floats are modelled as real
numbers; the three.js library helpers (normalize, angleTo, lerp) are
embedded with their library semantics, including the zero-length guards.
-/

namespace OfficeGame

noncomputable section

open Real

/-- Three.js Vector3: three real components. -/
structure Vec3 where
  x : ℝ
  y : ℝ
  z : ℝ

/-- Componentwise addition (Vector3.add). -/
def Vec3.add (u v : Vec3) : Vec3 := ⟨u.x + v.x, u.y + v.y, u.z + v.z⟩

/-- Componentwise subtraction (Vector3.subVectors / sub). -/
def Vec3.sub (u v : Vec3) : Vec3 := ⟨u.x - v.x, u.y - v.y, u.z - v.z⟩

/-- Scalar multiple (Vector3.multiplyScalar). -/
def Vec3.smul (u : Vec3) (c : ℝ) : Vec3 := ⟨u.x * c, u.y * c, u.z * c⟩

/-- Dot product (Vector3.dot). -/
def Vec3.dot (u v : Vec3) : ℝ := u.x * v.x + u.y * v.y + u.z * v.z

/-- Squared length (Vector3.lengthSq). -/
def Vec3.lengthSq (u : Vec3) : ℝ := u.x * u.x + u.y * u.y + u.z * u.z

/-- Length (Vector3.length). -/
def Vec3.length (u : Vec3) : ℝ := Real.sqrt u.lengthSq

/-- Distance between two points (Vector3.distanceTo). -/
def Vec3.distanceTo (u v : Vec3) : ℝ := (u.sub v).length

/-- Three.js Vector3.normalize: divideScalar(length or 1), so the zero
vector stays the zero vector rather than producing NaN. -/
def Vec3.threeNormalize (u : Vec3) : Vec3 :=
  if u.length = 0 then u else u.smul (1 / u.length)

/-- Three.js Vector3.angleTo: acos of the clamped normalized dot product,
with pi/2 returned when either vector has length zero. -/
def Vec3.threeAngleTo (u v : Vec3) : ℝ :=
  if Real.sqrt (u.lengthSq * v.lengthSq) = 0 then Real.pi / 2
  else Real.arccos (max (-1) (min 1 (u.dot v / Real.sqrt (u.lengthSq * v.lengthSq))))

/-- Three.js Vector3.lerp: u + (v - u) * alpha, componentwise. -/
def Vec3.lerpV (u v : Vec3) (alpha : ℝ) : Vec3 :=
  ⟨u.x + (v.x - u.x) * alpha, u.y + (v.y - u.y) * alpha, u.z + (v.z - u.z) * alpha⟩

/-- Three.js MathUtils.degToRad. -/
def degToRad (degrees : ℝ) : ℝ := degrees * (Real.pi / 180)

/-- An occluder, abstracted to the query the code makes of it through the
three.js raycaster: given ray origin, unit ray direction and the far
clip distance, does the ray hit this occluder within that distance. -/
def Wall : Type := Vec3 → Vec3 → ℝ → Bool

/-- VisionCone (src/src/ai/VisionCone.ts): field of view in radians and
maximum detection range. -/
structure VisionCone where
  fov : ℝ
  range : ℝ

/-- The cone the pursuer constructs: new VisionCone(120, 15). -/
def louisVisionCone : VisionCone := ⟨degToRad 120, 15⟩

/-- VisionCone.canSeeTarget: range gate, field-of-view gate, then the
line-of-sight raycast from eye height, clipped to the measured distance. -/
def VisionCone.canSeeTarget (vc : VisionCone) (fromPosition : Vec3) (fromRotation : ℝ)
    (targetPosition : Vec3) (walls : List Wall) : Bool :=
  let direction : Vec3 := ⟨Real.sin fromRotation, 0, Real.cos fromRotation⟩
  let toTarget := targetPosition.sub fromPosition
  let distance := toTarget.length
  if distance > vc.range then false
  else
    let toTargetN := toTarget.threeNormalize
    let angle := direction.threeAngleTo toTargetN
    if angle > vc.fov / 2 then false
    else if walls.length > 0 then
      let rayOrigin := fromPosition.add ⟨0, 1.5, 0⟩
      if walls.any (fun w => w rayOrigin toTargetN distance) then false else true
    else true

/-- VisionCone.getDetectionLevel: 0 unless canSeeTarget, otherwise the
clamped product of the distance factor and the angle factor. -/
def VisionCone.getDetectionLevel (vc : VisionCone) (fromPosition : Vec3) (fromRotation : ℝ)
    (targetPosition : Vec3) (walls : List Wall) : ℝ :=
  if vc.canSeeTarget fromPosition fromRotation targetPosition walls then
    let direction : Vec3 := ⟨Real.sin fromRotation, 0, Real.cos fromRotation⟩
    let toTarget := targetPosition.sub fromPosition
    let distance := toTarget.length
    let toTargetN := toTarget.threeNormalize
    let distanceFactor := 1 - distance / vc.range
    let angle := direction.threeAngleTo toTargetN
    let angleFactor := 1 - angle / (vc.fov / 2)
    max 0 (min 1 (distanceFactor * angleFactor))
  else 0

/-- Axis-aligned box (three.js Box3), as registered with the collision
system. -/
structure Box3 where
  min : Vec3
  max : Vec3

/-- Result record of CollisionSystem.checkSphereCollision. -/
structure SphereHit where
  collided : Bool
  normal : Vec3
  depth : ℝ

/-- Closest point of a box to a center: the per-axis clamp computed inline
in CollisionSystem.checkSphereCollision. -/
def closestPointOnBox (box : Box3) (center : Vec3) : Vec3 :=
  ⟨max box.min.x (min center.x box.max.x),
   max box.min.y (min center.y box.max.y),
   max box.min.z (min center.z box.max.z)⟩

/-- CollisionSystem.checkSphereCollision: first colliding box wins; the
push-out normal degenerates to (0,1,0) when the center sits exactly at the
closest point. -/
def checkSphereCollision (collidables : List Box3) (center : Vec3) (radius : ℝ) : SphereHit :=
  match collidables with
  | [] => ⟨false, ⟨0, 0, 0⟩, 0⟩
  | box :: rest =>
      let closestPoint := closestPointOnBox box center
      let distance := center.distanceTo closestPoint
      if distance < radius then
        let normal0 := (center.sub closestPoint).threeNormalize
        let normal := if distance = 0 then (⟨0, 1, 0⟩ : Vec3) else normal0
        ⟨true, normal, radius - distance⟩
      else checkSphereCollision rest center radius

/-- CollisionSystem.resolvePlayerCollision: push out along the collision
normal, then try sliding on the X-only and Z-only moves. -/
def resolvePlayerCollision (collidables : List Box3) (currentPos desiredPos : Vec3)
    (playerRadius : ℝ) : Vec3 :=
  let collision := checkSphereCollision collidables desiredPos playerRadius
  if collision.collided then
    let result := desiredPos.add (collision.normal.smul collision.depth)
    let slideX : Vec3 := ⟨desiredPos.x, result.y, currentPos.z⟩
    let collisionX := checkSphereCollision collidables slideX playerRadius
    let slideZ : Vec3 := ⟨currentPos.x, result.y, desiredPos.z⟩
    let collisionZ := checkSphereCollision collidables slideZ playerRadius
    if collisionX.collided = false ∧ collisionZ.collided = true then
      ⟨desiredPos.x, result.y, result.z⟩
    else if collisionX.collided = true ∧ collisionZ.collided = false then
      ⟨result.x, result.y, desiredPos.z⟩
    else result
  else desiredPos

/-- One state of the generic state machine (src/src/ai/StateMachine.ts),
with optional enter and exit hooks. -/
structure SMState (α : Type) where
  name : String
  enter : Option (α → α)
  execute : α → ℝ → α
  exitHook : Option (α → α)

/-- Observable effects of StateMachine.setCurrentState: the console warning
for an unknown state, and each hook invocation. -/
inductive SMEvent where
  | warnUnknown (stateName : String)
  | exitedHook (stateName : String)
  | enteredHook (stateName : String)
deriving DecidableEq

/-- The generic state machine: registered states, current and previous
state, and the owned entity the hooks mutate. -/
structure StateMachine (α : Type) where
  states : List (String × SMState α)
  currentState : Option (SMState α)
  previousState : Option (SMState α)
  entity : α

/-- StateMachine.setCurrentState: an unregistered name logs a warning and
returns with nothing changed; otherwise the current state exits, the
previous state is recorded, and the new state enters. -/
def StateMachine.setCurrentState {α : Type} (sm : StateMachine α) (stateName : String) :
    StateMachine α × List SMEvent :=
  match sm.states.lookup stateName with
  | none => (sm, [SMEvent.warnUnknown stateName])
  | some newState =>
      let afterExit : α × List SMEvent :=
        match sm.currentState with
        | some cs =>
            match cs.exitHook with
            | some f => (f sm.entity, [SMEvent.exitedHook cs.name])
            | none => (sm.entity, [])
        | none => (sm.entity, [])
      let afterEnter : α × List SMEvent :=
        match newState.enter with
        | some f => (f afterExit.1, [SMEvent.enteredHook newState.name])
        | none => (afterExit.1, [])
      ({ sm with
          previousState := sm.currentState
          currentState := some newState
          entity := afterEnter.1 },
       afterExit.2 ++ afterEnter.2)

/-- The five behavioral states of the pursuer. -/
inductive StateName where
  | PATROL
  | SUSPICIOUS
  | CHASE
  | SEARCH
  | CAUGHT
deriving DecidableEq

/-- SuspicionSample: a timestamped detection reading with the observed
position and the unit direction toward it. -/
structure Sample where
  position : Vec3
  direction : Vec3
  level : ℝ
  timestamp : ℝ

/-- The mutable state of the pursuer (class LouisAI), flattened to the
fields the core logic reads and writes. -/
structure Louis where
  stateName : StateName
  speed : ℝ
  position : Vec3
  rotationY : ℝ
  currentVelocity : Vec3
  suspicionTimer : ℝ
  chaseTimer : ℝ
  searchTimer : ℝ
  stuckTimer : ℝ
  lastPosition : Vec3
  lastKnownPlayerPosition : Vec3
  suspicionHistory : List Sample
  investigationTarget : Vec3
  currentSuspicionLevel : ℝ
  searchWaypoints : List Vec3
  currentSearchIndex : ℕ
  patrolPoints : List Vec3
  currentPatrolIndex : ℕ

/-- What one simulation tick supplies from outside the pursuer: the live
player position when a player exists, the occluders, the time step, the
wall-clock timestamp, the eight Math.random draws the waypoint generator
may consume, and the optionally present collision system. -/
structure Env where
  player : Option Vec3
  walls : List Wall
  dt : ℝ
  now : ℝ
  rand8 : Fin 8 → ℝ
  collision : Option (List Box3)

/-- LouisAI.WALK_SPEED. -/
def WALK_SPEED : ℝ := 4

/-- LouisAI.CHASE_SPEED. -/
def CHASE_SPEED : ℝ := 9

/-- The detection level the per-tick query computes: 0 without a player,
otherwise the vision cone evaluated at the pursuer pose against the live
player position. -/
def louisDetection (env : Env) (L : Louis) : ℝ :=
  match env.player with
  | none => 0
  | some p => louisVisionCone.getDetectionLevel L.position L.rotationY p env.walls

/-- LouisAI.checkForPlayer: returns the detection level and refreshes the
last known player position when the level exceeds 0.1. -/
def checkForPlayer (env : Env) (L : Louis) : Louis × ℝ :=
  match env.player with
  | none => (L, 0)
  | some p =>
      let detectionLevel := louisVisionCone.getDetectionLevel L.position L.rotationY p env.walls
      (if detectionLevel > 0.1 then { L with lastKnownPlayerPosition := p } else L,
       detectionLevel)

/-- LouisAI.updateSuspicionHistory: always records the current suspicion
level; appends a zero sample carrying the last known position when the
level is not positive, and a full sample with the direction to the player
otherwise. -/
def updateSuspicionHistory (env : Env) (detectionLevel : ℝ) (L : Louis) : Louis :=
  let L1 := { L with currentSuspicionLevel := detectionLevel }
  match env.player with
  | none =>
      if detectionLevel ≤ 0 then
        { L1 with suspicionHistory :=
            L1.suspicionHistory ++ [⟨L1.lastKnownPlayerPosition, ⟨0, 0, 1⟩, 0, env.now⟩] }
      else L1
  | some p =>
      if detectionLevel ≤ 0 then
        { L1 with suspicionHistory :=
            L1.suspicionHistory ++ [⟨L1.lastKnownPlayerPosition, ⟨0, 0, 1⟩, 0, env.now⟩] }
      else
        let direction := (p.sub L1.position).threeNormalize
        { L1 with suspicionHistory :=
            L1.suspicionHistory ++ [⟨p, direction, detectionLevel, env.now⟩] }

/-- LouisAI.clearSuspicionHistory. -/
def clearSuspicionHistory (L : Louis) : Louis :=
  { L with suspicionHistory := [], currentSuspicionLevel := 0 }

/-- LouisAI.isSuspicionIncreasing: compare the mean level of the last three
samples (javascript slice(-3)) against the mean of the first
max(1, length - 3) samples (slice(0, max(1, length - 3))), with a 0.05
noise threshold. -/
def isSuspicionIncreasing (suspicionHistory : List Sample) : Bool :=
  if suspicionHistory.length < 2 then false
  else
    let recent := suspicionHistory.drop (suspicionHistory.length - 3)
    let avgRecent := (recent.map Sample.level).sum / (recent.length : ℝ)
    let older := suspicionHistory.take (max 1 (suspicionHistory.length - 3))
    let avgOlder := (older.map Sample.level).sum / (older.length : ℝ)
    decide (avgRecent > avgOlder + 0.05)

/-- LouisAI.calculateInvestigationTarget: extrapolate from the pursuer
position along the weighted average direction of the last five samples, at
distance 3 + currentSuspicionLevel * 5, pinned to the ground; fall back to
the last known player position when the history is empty or the total
weight is not positive. -/
def calculateInvestigationTarget (L : Louis) : Louis :=
  if L.suspicionHistory.length = 0 then
    { L with investigationTarget := L.lastKnownPlayerPosition }
  else
    let recent := L.suspicionHistory.drop (L.suspicionHistory.length - 5)
    let avgDirection :=
      recent.foldl (fun acc s => acc.add (s.direction.smul s.level)) (⟨0, 0, 0⟩ : Vec3)
    let totalWeight := recent.foldl (fun acc s => acc + s.level) 0
    if totalWeight > 0 then
      let dir := (avgDirection.smul (1 / totalWeight)).threeNormalize
      let investigateDistance := 3 + L.currentSuspicionLevel * 5
      let t := L.position.add (dir.smul investigateDistance)
      { L with investigationTarget := ⟨t.x, 0, t.z⟩ }
    else
      { L with investigationTarget := L.lastKnownPlayerPosition }

/-- The eight search waypoints of LouisAI.generateSearchWaypoints: an
outward spiral around the center, with per-point random jitter on the
angle and the y coordinate set to 0. -/
def searchWaypointList (center : Vec3) (rand8 : Fin 8 → ℝ) : List Vec3 :=
  List.ofFn (fun i : Fin 8 =>
    let angle := ((i : ℝ) / 8) * Real.pi * 2 + rand8 i * 0.5
    let radius := 6 * (0.5 + 0.5 * ((i : ℝ) / 8))
    (⟨center.x + Real.cos angle * radius, 0, center.z + Real.sin angle * radius⟩ : Vec3))

/-- The index-tracking minimum-distance loop at the end of
LouisAI.generateSearchWaypoints, with minDist starting at Infinity. -/
def argminLoop (pos : Vec3) : List Vec3 → ℕ → ℕ × WithTop ℝ → ℕ × WithTop ℝ
  | [], _, acc => acc
  | w :: rest, i, acc =>
      argminLoop pos rest (i + 1)
        (if (pos.distanceTo w : WithTop ℝ) < acc.2 then (i, (pos.distanceTo w : WithTop ℝ))
         else acc)

/-- Index of the waypoint closest to the pursuer, as the source loop
computes it (first index attaining the running minimum). -/
def argminIndex (pos : Vec3) (ws : List Vec3) : ℕ :=
  (argminLoop pos ws 0 (0, ⊤)).1

/-- LouisAI.generateSearchWaypoints: build the eight waypoints around the
last known player position and start from the one closest to the pursuer. -/
def generateSearchWaypoints (env : Env) (L : Louis) : Louis :=
  let ws := searchWaypointList L.lastKnownPlayerPosition env.rand8
  { L with searchWaypoints := ws, currentSearchIndex := argminIndex L.position ws }

/-- LouisAI.getCurrentSearchWaypoint: the indexed waypoint, or the last
known player position when the list is empty. -/
def getCurrentSearchWaypoint (L : Louis) : Vec3 :=
  if L.searchWaypoints.length = 0 then L.lastKnownPlayerPosition
  else L.searchWaypoints.getD L.currentSearchIndex ⟨0, 0, 0⟩

/-- LouisAI.nextSearchWaypoint: advance the index modulo the list length. -/
def nextSearchWaypoint (L : Louis) : Louis :=
  if L.searchWaypoints.length = 0 then L
  else { L with currentSearchIndex := (L.currentSearchIndex + 1) % L.searchWaypoints.length }

/-- LouisAI.clearSearchWaypoints. -/
def clearSearchWaypoints (L : Louis) : Louis :=
  { L with searchWaypoints := [], currentSearchIndex := 0 }

/-- LouisAI.moveTowards: blend the velocity toward the (ground-projected)
direction at rate 10 per time unit, then either move directly or through
the collision resolver with radius 0.3, zeroing a velocity axis the
resolver blocked, and pin y to the ground. -/
def moveTowards (env : Env) (target : Vec3) (L : Louis) : Louis :=
  let direction0 := (target.sub L.position).threeNormalize
  let direction : Vec3 := ⟨direction0.x, 0, direction0.z⟩
  let currentVelocity := L.currentVelocity.lerpV (direction.smul L.speed) (10 * env.dt)
  let currentPos := L.position
  let desiredPos := currentPos.add (currentVelocity.smul env.dt)
  match env.collision with
  | some collidables =>
      let resolvedPos := resolvePlayerCollision collidables currentPos desiredPos 0.3
      let vx := if |desiredPos.x - currentPos.x| > 0.001 ∧ |resolvedPos.x - currentPos.x| < 0.001
                then 0 else currentVelocity.x
      let vz := if |desiredPos.z - currentPos.z| > 0.001 ∧ |resolvedPos.z - currentPos.z| < 0.001
                then 0 else currentVelocity.z
      { L with currentVelocity := ⟨vx, currentVelocity.y, vz⟩,
               position := ⟨resolvedPos.x, 0, resolvedPos.z⟩ }
  | none =>
      { L with currentVelocity := currentVelocity,
               position := ⟨desiredPos.x, 0, desiredPos.z⟩ }

/-- Javascript Math.atan2, embedded as the complex argument. -/
def atan2 (yv xv : ℝ) : ℝ := Complex.arg ⟨xv, yv⟩

/-- Closed form of the first normalization loop in LouisAI.lookAt
(subtract 2 pi while the difference exceeds pi). -/
def wrapDown (d : ℝ) : ℝ :=
  d - 2 * Real.pi * ((max 0 ⌈(d - Real.pi) / (2 * Real.pi)⌉ : ℤ) : ℝ)

/-- Closed form of the second normalization loop in LouisAI.lookAt
(add 2 pi while the difference is below minus pi). -/
def wrapUp (d : ℝ) : ℝ :=
  d + 2 * Real.pi * ((max 0 ⌈(-Real.pi - d) / (2 * Real.pi)⌉ : ℤ) : ℝ)

/-- LouisAI.lookAt: smooth the yaw toward the bearing of the target along
the shortest angular path, at the fixed blend 5 * 0.016. -/
def lookAt (target : Vec3) (L : Louis) : Louis :=
  let direction := target.sub L.position
  let targetRotation := atan2 direction.x direction.z
  let diff := wrapUp (wrapDown (targetRotation - L.rotationY))
  { L with rotationY := L.rotationY + diff * 5 * 0.016 }

/-- LouisAI.canCatchPlayer: within 1.5 units of the live player position. -/
def canCatchPlayer (env : Env) (L : Louis) : Bool :=
  match env.player with
  | none => false
  | some p => decide (L.position.distanceTo p < 1.5)

/-- Primitive per-tick actions, recorded in source order by the execute
embeddings so that the ordering of detection against movement is a stated
fact rather than an invisible one. -/
inductive Ev where
  | timer
  | detect
  | history
  | move
  | look
  | scanRotate
  | waypointAdvance
  | investigate
  | catchCheck
  | transition (s : StateName)
deriving DecidableEq

/-- True when a move event occurs strictly before the first detection
event of a trace (or with no detection event at all). -/
def moveBeforeDetect : List Ev → Bool
  | [] => false
  | Ev.move :: _ => true
  | Ev.detect :: _ => false
  | _ :: t => moveBeforeDetect t

/-- The exit hook of each pursuer state, from the five state objects in
LouisAI.ts. -/
def exitState (L : Louis) : Louis :=
  match L.stateName with
  | .PATROL => L
  | .SUSPICIOUS => clearSuspicionHistory { L with suspicionTimer := 0, stuckTimer := 0 }
  | .CHASE => { L with chaseTimer := 0 }
  | .SEARCH =>
      clearSearchWaypoints
        (clearSuspicionHistory { L with searchTimer := 0, stuckTimer := 0 })
  | .CAUGHT => L

/-- The enter hook of each pursuer state, from the five state objects in
LouisAI.ts.  Console quotes and the external catch notification carry no
core state and are not modelled. -/
def enterState (s : StateName) (env : Env) (L : Louis) : Louis :=
  match s with
  | .PATROL => clearSuspicionHistory { L with speed := WALK_SPEED }
  | .SUSPICIOUS =>
      calculateInvestigationTarget
        { L with speed := WALK_SPEED * 0.6, suspicionTimer := 0, stuckTimer := 0,
                 lastPosition := L.position }
  | .CHASE => { L with speed := CHASE_SPEED, chaseTimer := 0 }
  | .SEARCH =>
      let L1 := clearSuspicionHistory
        { L with speed := WALK_SPEED * 0.7, searchTimer := 0, stuckTimer := 0,
                 lastPosition := L.position }
      let L2 := match env.player with
        | some p => { L1 with lastKnownPlayerPosition := p }
        | none => L1
      generateSearchWaypoints env L2
  | .CAUGHT => { L with speed := 0 }

/-- StateMachine.setCurrentState as the pursuer uses it: exit the current
state, switch, enter the new state. -/
def setState (s : StateName) (env : Env) (L : Louis) : Louis :=
  enterState s env { (exitState L) with stateName := s }

/-- LouisAI.patrol: advance the patrol index on arrival within 0.5 units,
otherwise walk and turn toward the current patrol waypoint. -/
def patrol (env : Env) (L : Louis) : Louis × List Ev :=
  if L.patrolPoints.length = 0 then (L, [])
  else
    let target := L.patrolPoints.getD L.currentPatrolIndex ⟨0, 0, 0⟩
    if L.position.distanceTo target < 0.5 then
      ({ L with currentPatrolIndex := (L.currentPatrolIndex + 1) % L.patrolPoints.length },
       [Ev.waypointAdvance])
    else
      (lookAt target (moveTowards env target L), [Ev.move, Ev.look])

/-- PATROL_STATE.execute: check for the player first, then chase, go
suspicious, or continue the patrol route. -/
def patrolExecute (env : Env) (L0 : Louis) : Louis × List Ev :=
  let C := checkForPlayer env L0
  let L := C.1
  let detectionLevel := C.2
  if detectionLevel > 0.9 then
    (setState .CHASE env L, [Ev.detect, Ev.transition .CHASE])
  else if detectionLevel > 0.3 then
    (setState .SUSPICIOUS env L, [Ev.detect, Ev.transition .SUSPICIOUS])
  else
    let P := patrol env L
    (P.1, Ev.detect :: P.2)

/-- The movement half of SUSPICIOUS_STATE.execute: walk toward the
investigation target with stuck recovery, or scan in place on arrival. -/
def suspiciousMovementPhase (env : Env) (L4 : Louis) : Louis × List Ev :=
  if L4.position.distanceTo L4.investigationTarget > 0.5 then
    let prevPos := L4.position
    let L5 := moveTowards env L4.investigationTarget L4
    let moved := prevPos.distanceTo L5.position
    let L6 :=
      if moved < 0.01 then
        let L5a := { L5 with stuckTimer := L5.stuckTimer + env.dt }
        if L5a.stuckTimer > 1.5 then
          { (calculateInvestigationTarget L5a) with stuckTimer := 0 }
        else L5a
      else { L5 with stuckTimer := 0 }
    (lookAt L4.investigationTarget L6, [Ev.move, Ev.look])
  else
    ({ L4 with rotationY := L4.rotationY + env.dt * 0.5 }, [Ev.scanRotate])

/-- SUSPICIOUS_STATE.execute. -/
def suspiciousExecute (env : Env) (L0 : Louis) : Louis × List Ev :=
  let L1 := { L0 with suspicionTimer := L0.suspicionTimer + env.dt }
  let C := checkForPlayer env L1
  let L2 := C.1
  let detectionLevel := C.2
  let L3 := updateSuspicionHistory env detectionLevel L2
  if detectionLevel > 0.9 then
    (setState .CHASE env L3, [Ev.timer, Ev.detect, Ev.history, Ev.transition .CHASE])
  else if detectionLevel < 0.05 ∧ L3.suspicionTimer > 2.0 then
    (setState .PATROL env L3, [Ev.timer, Ev.detect, Ev.history, Ev.transition .PATROL])
  else
    let L4 := if isSuspicionIncreasing L3.suspicionHistory then
                { (calculateInvestigationTarget L3) with stuckTimer := 0 }
              else L3
    let M := suspiciousMovementPhase env L4
    let L7 := M.1
    if L7.currentSuspicionLevel > 0.8 then
      (setState .CHASE env L7,
       [Ev.timer, Ev.detect, Ev.history] ++ M.2 ++ [Ev.transition .CHASE])
    else (L7, [Ev.timer, Ev.detect, Ev.history] ++ M.2)

/-- CHASE_STATE.execute: move toward the live player, check the catch,
then check detection and hand off to SEARCH when the player is lost. -/
def chaseExecute (env : Env) (L0 : Louis) : Louis × List Ev :=
  let L1 := { L0 with chaseTimer := L0.chaseTimer + env.dt }
  let M : Louis × List Ev :=
    match env.player with
    | some p => (lookAt p (moveTowards env p L1), [Ev.move, Ev.look])
    | none => (L1, [])
  let L2 := M.1
  if canCatchPlayer env L2 then
    (setState .CAUGHT env L2, Ev.timer :: M.2 ++ [Ev.catchCheck, Ev.transition .CAUGHT])
  else
    let C := checkForPlayer env L2
    let L3 := C.1
    let detectionLevel := C.2
    if detectionLevel < 0.1 then
      (setState .SEARCH env L3,
       Ev.timer :: M.2 ++ [Ev.catchCheck, Ev.detect, Ev.transition .SEARCH])
    else (L3, Ev.timer :: M.2 ++ [Ev.catchCheck, Ev.detect])

/-- The movement half of SEARCH_STATE.execute: chase a building suspicion
trend directly, otherwise follow the search waypoints with stuck
recovery. -/
def searchMovementPhase (env : Env) (L3 : Louis) : Louis × List Ev :=
  if isSuspicionIncreasing L3.suspicionHistory then
    let L4 := calculateInvestigationTarget L3
    (lookAt L4.investigationTarget (moveTowards env L4.investigationTarget L4),
     [Ev.investigate, Ev.move, Ev.look])
  else
    let target := getCurrentSearchWaypoint L3
    if L3.position.distanceTo target < 0.5 then
      ({ (nextSearchWaypoint L3) with stuckTimer := 0 }, [Ev.waypointAdvance])
    else
      let prevPos := L3.position
      let L4 := moveTowards env target L3
      let moved := prevPos.distanceTo L4.position
      let L5 :=
        if moved < 0.01 then
          let L4a := { L4 with stuckTimer := L4.stuckTimer + env.dt }
          if L4a.stuckTimer > 2.0 then
            { (nextSearchWaypoint L4a) with stuckTimer := 0 }
          else L4a
        else { L4 with stuckTimer := 0 }
      (lookAt target L5, [Ev.move, Ev.look])

/-- SEARCH_STATE.execute. -/
def searchExecute (env : Env) (L0 : Louis) : Louis × List Ev :=
  let L1 := { L0 with searchTimer := L0.searchTimer + env.dt }
  let C := checkForPlayer env L1
  let L2 := C.1
  let detectionLevel := C.2
  let L3 := updateSuspicionHistory env detectionLevel L2
  if detectionLevel > 0.9 then
    (setState .CHASE env L3, [Ev.timer, Ev.detect, Ev.history, Ev.transition .CHASE])
  else if detectionLevel > 0.3 then
    (setState .SUSPICIOUS env L3, [Ev.timer, Ev.detect, Ev.history, Ev.transition .SUSPICIOUS])
  else
    let M := searchMovementPhase env L3
    let L6 := M.1
    if L6.searchTimer > 6 then
      (setState .PATROL env L6,
       [Ev.timer, Ev.detect, Ev.history] ++ M.2 ++ [Ev.transition .PATROL])
    else (L6, [Ev.timer, Ev.detect, Ev.history] ++ M.2)

/-- CAUGHT_STATE.execute: a no-op until the surrounding game resets. -/
def caughtExecute (_env : Env) (L0 : Louis) : Louis × List Ev := (L0, [])

/-- One tick of the owning state machine: dispatch to the active state
object and run its execute step. -/
def executeStep (env : Env) (L : Louis) : Louis × List Ev :=
  match L.stateName with
  | .PATROL => patrolExecute env L
  | .SUSPICIOUS => suspiciousExecute env L
  | .CHASE => chaseExecute env L
  | .SEARCH => searchExecute env L
  | .CAUGHT => caughtExecute env L

/-- LouisAI.investigateNoise: store the noise position as the last known
player position, then force a SEARCH transition unless currently in CHASE
or CAUGHT. -/
def investigateNoise (position : Vec3) (env : Env) (L : Louis) : Louis :=
  let L1 := { L with lastKnownPlayerPosition := position }
  if L1.stateName ≠ .CHASE ∧ L1.stateName ≠ .CAUGHT then setState .SEARCH env L1 else L1

/-- Mean detection level of a list of samples, as the spec describes the
trend comparison. -/
def meanLevel (l : List Sample) : ℝ := (l.map Sample.level).sum / (l.length : ℝ)

/-- The most recent five samples of a history, as the spec describes the
investigation-target estimate. -/
def recent5 (h : List Sample) : List Sample := h.drop (h.length - 5)

/-- Strength-weighted total of a list of samples. -/
def totalLevel (l : List Sample) : ℝ := (l.map Sample.level).sum

/-- Strength-weighted sum of the direction vectors of a list of samples. -/
def weightedDirSum (l : List Sample) : Vec3 :=
  (l.map (fun s => s.direction.smul s.level)).foldr Vec3.add ⟨0, 0, 0⟩

/-- Pin a point to ground level. -/
def setGround (v : Vec3) : Vec3 := ⟨v.x, 0, v.z⟩

/-- The sphere of the given radius around the center lies strictly inside
the box. -/
def sphereStrictlyInsideBox (box : Box3) (center : Vec3) (radius : ℝ) : Prop :=
  box.min.x < center.x - radius ∧ center.x + radius < box.max.x ∧
  box.min.y < center.y - radius ∧ center.y + radius < box.max.y ∧
  box.min.z < center.z - radius ∧ center.z + radius < box.max.z

/-- A neutral concrete pursuer state used to instantiate theorems. -/
def baseLouis : Louis where
  stateName := .PATROL
  speed := 0
  position := ⟨0, 0, 0⟩
  rotationY := 0
  currentVelocity := ⟨0, 0, 0⟩
  suspicionTimer := 0
  chaseTimer := 0
  searchTimer := 0
  stuckTimer := 0
  lastPosition := ⟨0, 0, 0⟩
  lastKnownPlayerPosition := ⟨0, 0, 0⟩
  suspicionHistory := []
  investigationTarget := ⟨0, 0, 0⟩
  currentSuspicionLevel := 0
  searchWaypoints := []
  currentSearchIndex := 0
  patrolPoints := []
  currentPatrolIndex := 0

/-- A neutral concrete tick environment: no player, no walls, unit time
step, zero jitter, no collision system. -/
def baseEnv : Env where
  player := none
  walls := []
  dt := 1
  now := 0
  rand8 := fun _ => 0
  collision := none

/-- An environment whose live player stands at (7, 0, 7). -/
def playerEnv : Env := { baseEnv with player := some ⟨7, 0, 7⟩ }

/-- A noise position distinct from the live player position. -/
def noiseV : Vec3 := ⟨1, 0, 1⟩

/-- Concrete pursuer chasing the player. -/
def chaseLouis : Louis := { baseLouis with stateName := .CHASE }

/-- Concrete pursuer already caught the player. -/
def caughtLouis : Louis := { baseLouis with stateName := .CAUGHT }

/-- Concrete searching pursuer whose timer will reach exactly 6.0 on the
next unit tick. -/
def searchLouisAtSix : Louis := { baseLouis with stateName := .SEARCH, searchTimer := 5 }

/-- Concrete searching pursuer whose timer will pass 6.0 on the next unit
tick. -/
def searchLouisPastSix : Louis :=
  { baseLouis with stateName := .SEARCH, searchTimer := 5.5 }

/-- Concrete pursuer whose last known player position sits above ground
level. -/
def raisedCenterLouis : Louis :=
  { baseLouis with lastKnownPlayerPosition := ⟨0, 1, 0⟩ }

/-- The box addBoxCollider(10, 10, 10, 5, 0, 5) registers: corners (0,0,0)
and (10,10,10). -/
def bigBox : Box3 := ⟨⟨0, 0, 0⟩, ⟨10, 10, 10⟩⟩

/-- Concrete point at the center of bigBox. -/
def boxCenterPoint : Vec3 := ⟨5, 5, 5⟩

/-- Concrete empty state machine over natural-number entities. -/
def emptyMachine : StateMachine ℕ where
  states := []
  currentState := none
  previousState := none
  entity := 0

/-- The state name requested in the unknown-state witness. -/
def chaseNameStr : String := "CHASE"

/-- A zero-strength concrete suspicion sample. -/
def sampleLow : Sample := ⟨⟨0, 0, 0⟩, ⟨0, 0, 1⟩, 0, 0⟩

/-- A full-strength concrete suspicion sample. -/
def sampleHigh : Sample := ⟨⟨0, 0, 0⟩, ⟨0, 0, 1⟩, 1, 0⟩

/-- Distance from the origin of a vision query to the target. -/
def visionDistance (fromPosition targetPosition : Vec3) : ℝ :=
  (targetPosition.sub fromPosition).length

/-- Angle between the facing direction and the normalized direction to the
target, with the three.js angleTo semantics. -/
def visionAngle (fromPosition : Vec3) (fromRotation : ℝ) (targetPosition : Vec3) : ℝ :=
  Vec3.threeAngleTo ⟨Real.sin fromRotation, 0, Real.cos fromRotation⟩
    (targetPosition.sub fromPosition).threeNormalize

/-- Whether some occluder intersects the eye-height ray from the origin
toward the target within the measured distance. -/
def visionOccluded (fromPosition : Vec3) (targetPosition : Vec3) (walls : List Wall) : Bool :=
  walls.any (fun w =>
    w (fromPosition.add ⟨0, 1.5, 0⟩) (targetPosition.sub fromPosition).threeNormalize
      (targetPosition.sub fromPosition).length)

theorem moveTowards_stateName (env : Env) (target : Vec3) (L : Louis) :
    (moveTowards env target L).stateName = L.stateName := by
  unfold moveTowards
  cases env.collision <;> rfl

theorem moveTowards_searchTimer (env : Env) (target : Vec3) (L : Louis) :
    (moveTowards env target L).searchTimer = L.searchTimer := by
  unfold moveTowards
  cases env.collision <;> rfl

theorem lookAt_stateName (target : Vec3) (L : Louis) :
    (lookAt target L).stateName = L.stateName := rfl

theorem lookAt_searchTimer (target : Vec3) (L : Louis) :
    (lookAt target L).searchTimer = L.searchTimer := rfl

theorem calculateInvestigationTarget_stateName (L : Louis) :
    (calculateInvestigationTarget L).stateName = L.stateName := by
  simp only [calculateInvestigationTarget]
  split
  · rfl
  · split <;> rfl

theorem calculateInvestigationTarget_searchTimer (L : Louis) :
    (calculateInvestigationTarget L).searchTimer = L.searchTimer := by
  simp only [calculateInvestigationTarget]
  split
  · rfl
  · split <;> rfl

theorem nextSearchWaypoint_stateName (L : Louis) :
    (nextSearchWaypoint L).stateName = L.stateName := by
  unfold nextSearchWaypoint
  split <;> rfl

theorem nextSearchWaypoint_searchTimer (L : Louis) :
    (nextSearchWaypoint L).searchTimer = L.searchTimer := by
  unfold nextSearchWaypoint
  split <;> rfl

theorem updateSuspicionHistory_stateName (env : Env) (d : ℝ) (L : Louis) :
    (updateSuspicionHistory env d L).stateName = L.stateName := by
  cases hp : env.player <;> simp only [updateSuspicionHistory, hp] <;> split <;> rfl

theorem updateSuspicionHistory_searchTimer (env : Env) (d : ℝ) (L : Louis) :
    (updateSuspicionHistory env d L).searchTimer = L.searchTimer := by
  cases hp : env.player <;> simp only [updateSuspicionHistory, hp] <;> split <;> rfl

theorem setState_stateName (s : StateName) (env : Env) (L : Louis) :
    (setState s env L).stateName = s := by
  cases s <;> cases hp : env.player <;>
    simp [setState, enterState, generateSearchWaypoints, clearSuspicionHistory,
          calculateInvestigationTarget_stateName, hp]

theorem checkForPlayer_of_detection_zero (env : Env) (L : Louis)
    (h : louisDetection env L = 0) : checkForPlayer env L = (L, 0) := by
  cases hp : env.player with
  | none => simp [checkForPlayer, hp]
  | some p =>
      have h2 : louisVisionCone.getDetectionLevel L.position L.rotationY p env.walls = 0 := by
        simpa [louisDetection, hp] using h
      simp only [checkForPlayer, hp, h2]
      rw [if_neg (by norm_num)]

theorem searchMovementPhase_stateName (env : Env) (L : Louis) :
    (searchMovementPhase env L).1.stateName = L.stateName := by
  simp only [searchMovementPhase]
  split
  · simp [lookAt_stateName, moveTowards_stateName, calculateInvestigationTarget_stateName]
  · split
    · simp [nextSearchWaypoint_stateName]
    · simp only [lookAt_stateName]
      split
      · split <;> simp [nextSearchWaypoint_stateName, moveTowards_stateName]
      · simp [moveTowards_stateName]

theorem searchMovementPhase_searchTimer (env : Env) (L : Louis) :
    (searchMovementPhase env L).1.searchTimer = L.searchTimer := by
  simp only [searchMovementPhase]
  split
  · simp [lookAt_searchTimer, moveTowards_searchTimer, calculateInvestigationTarget_searchTimer]
  · split
    · simp [nextSearchWaypoint_searchTimer]
    · simp only [lookAt_searchTimer]
      split
      · split <;> simp [nextSearchWaypoint_searchTimer, moveTowards_searchTimer]
      · simp [moveTowards_searchTimer]

/-- C9: requesting a transition to a state name that is not registered in
the machine logs a warning and leaves the machine entirely unchanged, with
no exit or enter hook executed. -/
theorem setCurrentState_unknown_spec {α : Type} (sm : StateMachine α) (stateName : String)
    (h : sm.states.lookup stateName = none) :
    StateMachine.setCurrentState sm stateName = (sm, [SMEvent.warnUnknown stateName]) := by
  unfold StateMachine.setCurrentState
  rw [h]

/-- Witness for C9 at a concrete machine with no registered states. -/
theorem setCurrentState_unknown_witness :
    StateMachine.setCurrentState emptyMachine chaseNameStr =
      (emptyMachine, [SMEvent.warnUnknown chaseNameStr]) :=
  setCurrentState_unknown_spec emptyMachine chaseNameStr rfl

/-- C10: the per-tick detection query leaves the stored last known player
position unchanged when the returned strength is at most 0.1, and
overwrites it with the live player position exactly when the strength
exceeds 0.1. -/
theorem checkForPlayer_lastKnown_spec (env : Env) (L : Louis) :
    ((checkForPlayer env L).2 ≤ 0.1 →
      (checkForPlayer env L).1.lastKnownPlayerPosition = L.lastKnownPlayerPosition) ∧
    ((checkForPlayer env L).2 > 0.1 →
      ∃ p, env.player = some p ∧ (checkForPlayer env L).1.lastKnownPlayerPosition = p) := by
  cases hp : env.player with
  | none =>
      have hck : checkForPlayer env L = (L, 0) := by simp [checkForPlayer, hp]
      rw [hck]
      exact ⟨fun _ => rfl, fun hgt => absurd hgt (by norm_num : ¬((0 : ℝ) > 0.1))⟩
  | some p =>
      simp only [checkForPlayer, hp]
      by_cases hd : louisVisionCone.getDetectionLevel L.position L.rotationY p env.walls > 0.1
      · rw [if_pos hd]
        exact ⟨fun hle => absurd hd (not_lt.mpr hle), fun _ => ⟨p, rfl, rfl⟩⟩
      · rw [if_neg hd]
        exact ⟨fun _ => rfl, fun hgt => absurd hgt hd⟩

/-- Witness for C10: with no player the query returns 0 and the last known
position is untouched. -/
theorem checkForPlayer_lastKnown_witness :
    (checkForPlayer baseEnv baseLouis).1.lastKnownPlayerPosition =
      baseLouis.lastKnownPlayerPosition :=
  (checkForPlayer_lastKnown_spec baseEnv baseLouis).1 (by norm_num [checkForPlayer, baseEnv])

/-- C5: the trend test returns false on fewer than two samples, and
otherwise compares the mean of the most recent three samples against the
mean of the first max(1, length - 3) samples with noise threshold 0.05. -/
theorem isSuspicionIncreasing_spec (h : List Sample) :
    (h.length < 2 → isSuspicionIncreasing h = false) ∧
    (2 ≤ h.length →
      (isSuspicionIncreasing h = true ↔
        meanLevel (h.drop (h.length - 3)) > meanLevel (h.take (max 1 (h.length - 3))) + 0.05)) := by
  constructor
  · intro hlt
    simp only [isSuspicionIncreasing]
    rw [if_pos hlt]
  · intro hge
    simp only [isSuspicionIncreasing]
    rw [if_neg (by omega)]
    simp [meanLevel]

/-- Witness for C5 at a two-sample history with levels 0 and 1. -/
theorem isSuspicionIncreasing_witness :
    isSuspicionIncreasing [sampleLow, sampleHigh] = true := by
  refine ((isSuspicionIncreasing_spec [sampleLow, sampleHigh]).2 (by simp)).mpr ?_
  norm_num [meanLevel, sampleLow, sampleHigh]

theorem searchExecute_stateName_of_quiet (env : Env) (L : Louis)
    (hd : louisDetection env L = 0) :
    (searchExecute env L).1.stateName =
      if L.searchTimer + env.dt > 6 then StateName.PATROL else L.stateName := by
  simp only [searchExecute]
  rw [checkForPlayer_of_detection_zero env ({ L with searchTimer := L.searchTimer + env.dt }) hd]
  dsimp only
  rw [if_neg (by norm_num), if_neg (by norm_num)]
  have hT : (searchMovementPhase env (updateSuspicionHistory env 0
      { L with searchTimer := L.searchTimer + env.dt })).1.searchTimer =
      L.searchTimer + env.dt := by
    rw [searchMovementPhase_searchTimer, updateSuspicionHistory_searchTimer]
  have hS : (searchMovementPhase env (updateSuspicionHistory env 0
      { L with searchTimer := L.searchTimer + env.dt })).1.stateName = L.stateName := by
    rw [searchMovementPhase_stateName, updateSuspicionHistory_stateName]
  rw [hT]
  by_cases hc : L.searchTimer + env.dt > 6
  · rw [if_pos hc, if_pos hc]
    exact setState_stateName _ _ _
  · rw [if_neg hc, if_neg hc]
    exact hS

/-- C8: in SEARCH with zero detection, the state stays SEARCH while the
accumulated timer is at or below 6.0 and switches to PATROL on the first
execute step whose accumulated timer strictly exceeds 6.0 (the source
compares with a strict greater-than). -/
theorem search_giveup_timing (env : Env) (L : Louis) (hs : L.stateName = .SEARCH)
    (hd : louisDetection env L = 0) :
    ((executeStep env L).1.stateName = .PATROL ↔ L.searchTimer + env.dt > 6) := by
  have hstep : executeStep env L = searchExecute env L := by
    unfold executeStep; rw [hs]
  rw [hstep, searchExecute_stateName_of_quiet env L hd]
  by_cases hc : L.searchTimer + env.dt > 6
  · rw [if_pos hc]
    exact iff_of_true rfl hc
  · rw [if_neg hc, hs]
    exact iff_of_false (fun heq => StateName.noConfusion heq) hc

/-- Witness for C8: an accumulated timer of 6.5 transitions to PATROL. -/
theorem search_giveup_timing_witness :
    (executeStep baseEnv searchLouisPastSix).1.stateName = .PATROL :=
  (search_giveup_timing baseEnv searchLouisPastSix rfl rfl).mpr
    (by norm_num [searchLouisPastSix, baseLouis, baseEnv])

/-- Counterexample for C8 as stated: at an accumulated search timer of
exactly 6.0 the claim asks for a PATROL transition, but the source keeps
searching because 6 is not strictly greater than 6. -/
theorem search_giveup_claim_counterexample :
    ¬ (∀ (env : Env) (L : Louis), L.stateName = .SEARCH → louisDetection env L = 0 →
        (((executeStep env L).1.stateName = .PATROL) ↔ 6 ≤ L.searchTimer + env.dt)) := by
  intro hclaim
  have hstay : (executeStep baseEnv searchLouisAtSix).1.stateName = .SEARCH := by
    rw [show executeStep baseEnv searchLouisAtSix = searchExecute baseEnv searchLouisAtSix
          from rfl,
        searchExecute_stateName_of_quiet baseEnv searchLouisAtSix rfl]
    rw [if_neg (by norm_num [searchLouisAtSix, baseLouis, baseEnv])]
    rfl
  have hpat := (hclaim baseEnv searchLouisAtSix rfl rfl).mpr
    (by norm_num [searchLouisAtSix, baseLouis, baseEnv])
  rw [hstay] at hpat
  exact StateName.noConfusion hpat

/-- C2 amended: PATROL evaluates detection first; SUSPICIOUS and SEARCH
evaluate it right after the timer accumulation and before any movement;
CHASE moves toward the player and checks the catch before evaluating
detection; CAUGHT never evaluates detection. -/
theorem detection_order_spec :
    (∀ (env : Env) (L : Louis), L.stateName = .PATROL →
        ((executeStep env L).2.head? = some Ev.detect ∧
         moveBeforeDetect (executeStep env L).2 = false)) ∧
    (∀ (env : Env) (L : Louis), L.stateName = .SUSPICIOUS ∨ L.stateName = .SEARCH →
        ((executeStep env L).2.take 2 = [Ev.timer, Ev.detect] ∧
         moveBeforeDetect (executeStep env L).2 = false)) ∧
    (∀ (env : Env) (L : Louis), L.stateName = .CHASE →
        ((executeStep env L).2.head? = some Ev.timer ∧
         (env.player.isSome = true → moveBeforeDetect (executeStep env L).2 = true))) ∧
    (∀ (env : Env) (L : Louis), L.stateName = .CAUGHT → (executeStep env L).2 = []) := by
  refine ⟨?_, ?_, ?_, ?_⟩
  · intro env L hs
    rw [show executeStep env L = patrolExecute env L from by unfold executeStep; rw [hs]]
    simp only [patrolExecute, patrol]
    constructor <;> split_ifs <;> rfl
  · intro env L hs
    rcases hs with hs | hs
    · rw [show executeStep env L = suspiciousExecute env L from by unfold executeStep; rw [hs]]
      simp only [suspiciousExecute]
      constructor <;> split_ifs <;> rfl
    · rw [show executeStep env L = searchExecute env L from by unfold executeStep; rw [hs]]
      simp only [searchExecute]
      constructor <;> split_ifs <;> rfl
  · intro env L hs
    rw [show executeStep env L = chaseExecute env L from by unfold executeStep; rw [hs]]
    cases hp : env.player with
    | none =>
        constructor
        · simp only [chaseExecute, hp]
          split_ifs <;> rfl
        · intro hsome
          simp at hsome
    | some p =>
        constructor
        · simp only [chaseExecute, hp]
          split_ifs <;> rfl
        · intro _
          simp only [chaseExecute, hp]
          split_ifs <;> rfl
  · intro env L hs
    rw [show executeStep env L = caughtExecute env L from by unfold executeStep; rw [hs]]
    rfl

/-- Witness for C2 amended: CAUGHT records no per-tick action at all. -/
theorem detection_order_witness : (executeStep baseEnv caughtLouis).2 = [] :=
  detection_order_spec.2.2.2 baseEnv caughtLouis rfl

/-- Counterexample for C2 as stated: in CHASE the tick starts with the
timer accumulation and the movement toward the player, not with the
detection evaluation. -/
theorem detection_order_counterexample :
    ¬ (∀ (env : Env) (L : Louis), (executeStep env L).2.head? = some Ev.detect) := by
  intro hclaim
  have hx := hclaim playerEnv chaseLouis
  rw [show executeStep playerEnv chaseLouis = chaseExecute playerEnv chaseLouis from rfl] at hx
  simp only [chaseExecute, show playerEnv.player = some (⟨7, 0, 7⟩ : Vec3) from rfl] at hx
  split_ifs at hx <;> simp at hx

/-- C1 amended: investigateNoise stores the noise position as the last
known player position and, outside CHASE and CAUGHT, transitions to
SEARCH; but the SEARCH enter hook re-snapshots the live player position
when one exists, so the waypoints are generated around the live player
position and only fall back to the noise location without a player.  In
CHASE or CAUGHT only the last known position changes. -/
theorem investigateNoise_spec (env : Env) (L : Louis) (position : Vec3) :
    ((L.stateName ≠ .CHASE ∧ L.stateName ≠ .CAUGHT) →
      ((investigateNoise position env L).stateName = .SEARCH ∧
       (investigateNoise position env L).lastKnownPlayerPosition =
         (match env.player with | some p => p | none => position) ∧
       (investigateNoise position env L).searchWaypoints =
         searchWaypointList (match env.player with | some p => p | none => position)
           env.rand8)) ∧
    ((L.stateName = .CHASE ∨ L.stateName = .CAUGHT) →
      investigateNoise position env L = { L with lastKnownPlayerPosition := position }) := by
  constructor
  · rintro ⟨h1, h2⟩
    simp only [investigateNoise]
    rw [if_pos (show ({ L with lastKnownPlayerPosition := position } : Louis).stateName ≠ .CHASE ∧
          ({ L with lastKnownPlayerPosition := position } : Louis).stateName ≠ .CAUGHT
        from ⟨h1, h2⟩)]
    cases hls : L.stateName with
    | CHASE => exact absurd hls h1
    | CAUGHT => exact absurd hls h2
    | PATROL =>
        cases hp : env.player <;>
          simp [setState, exitState, enterState, generateSearchWaypoints,
                clearSuspicionHistory, clearSearchWaypoints, hls, hp]
    | SUSPICIOUS =>
        cases hp : env.player <;>
          simp [setState, exitState, enterState, generateSearchWaypoints,
                clearSuspicionHistory, clearSearchWaypoints, hls, hp]
    | SEARCH =>
        cases hp : env.player <;>
          simp [setState, exitState, enterState, generateSearchWaypoints,
                clearSuspicionHistory, clearSearchWaypoints, hls, hp]
  · intro hdisj
    rcases hdisj with h | h
    · simp only [investigateNoise]
      rw [if_neg (fun hc => hc.1 h)]
    · simp only [investigateNoise]
      rw [if_neg (fun hc => hc.2 h)]

/-- Witness for C1 amended: with no player the noise location survives
as the last known position that seeds SEARCH. -/
theorem investigateNoise_spec_witness :
    (investigateNoise noiseV baseEnv baseLouis).stateName = .SEARCH ∧
    (investigateNoise noiseV baseEnv baseLouis).lastKnownPlayerPosition = noiseV := by
  have h := (investigateNoise_spec baseEnv baseLouis noiseV).1
    ⟨by simp [baseLouis], by simp [baseLouis]⟩
  exact ⟨h.1, by simpa [baseEnv] using h.2.1⟩

/-- Counterexample for C1 as stated: with a live player at (7,0,7) and a
noise at (1,0,1), the SEARCH enter hook overwrites the stored noise
position with the player position, so the noise does not seed the
search. -/
theorem investigateNoise_claim_counterexample :
    ¬ (∀ (env : Env) (L : Louis) (position : Vec3),
        (L.stateName ≠ .CHASE → L.stateName ≠ .CAUGHT →
          ((investigateNoise position env L).stateName = .SEARCH ∧
           (investigateNoise position env L).lastKnownPlayerPosition = position)) ∧
        ((L.stateName = .CHASE ∨ L.stateName = .CAUGHT) →
          (investigateNoise position env L).stateName = L.stateName)) := by
  intro hclaim
  have hlk := ((hclaim playerEnv baseLouis noiseV).1
    (by simp [baseLouis]) (by simp [baseLouis])).2
  have hval : (investigateNoise noiseV playerEnv baseLouis).lastKnownPlayerPosition =
      ⟨7, 0, 7⟩ := by
    simp [investigateNoise, setState, exitState, enterState, generateSearchWaypoints,
          clearSuspicionHistory, baseLouis, playerEnv, baseEnv]
  rw [hval] at hlk
  rw [show noiseV = (⟨1, 0, 1⟩ : Vec3) from rfl] at hlk
  exact absurd (congrArg Vec3.x hlk) (by norm_num)

theorem Vec3.zero_add_vec (v : Vec3) : (⟨0, 0, 0⟩ : Vec3).add v = v := by
  simp [Vec3.add]

theorem Vec3.add_assoc_vec (u v w : Vec3) : (u.add v).add w = u.add (v.add w) := by
  simp [Vec3.add, add_assoc]

theorem recent5_def (h : List Sample) : h.drop (h.length - 5) = recent5 h := rfl

theorem foldl_add_level (l : List Sample) (c : ℝ) :
    l.foldl (fun acc s => acc + s.level) c = c + totalLevel l := by
  induction l generalizing c with
  | nil => simp [totalLevel]
  | cons s t ih => simp [totalLevel, ih, add_assoc]

theorem foldl_add_dir (l : List Sample) (v : Vec3) :
    l.foldl (fun acc s => acc.add (s.direction.smul s.level)) v = v.add (weightedDirSum l) := by
  induction l generalizing v with
  | nil => simp [weightedDirSum, Vec3.add]
  | cons s t ih => simp [weightedDirSum, ih, Vec3.add_assoc_vec]

theorem Vec3.length_eq_zero_iff (v : Vec3) : v.length = 0 ↔ v = ⟨0, 0, 0⟩ := by
  constructor
  · intro h
    rw [Vec3.length] at h
    have hsq : v.lengthSq ≤ 0 := Real.sqrt_eq_zero'.mp h
    simp only [Vec3.lengthSq] at hsq
    have hx : v.x = 0 := by
      nlinarith [mul_self_nonneg v.x, mul_self_nonneg v.y, mul_self_nonneg v.z]
    have hy : v.y = 0 := by
      nlinarith [mul_self_nonneg v.x, mul_self_nonneg v.y, mul_self_nonneg v.z]
    have hz : v.z = 0 := by
      nlinarith [mul_self_nonneg v.x, mul_self_nonneg v.y, mul_self_nonneg v.z]
    cases v
    simp_all
  · rintro rfl
    simp [Vec3.length, Vec3.lengthSq]

theorem Vec3.length_smul_of_nonneg (v : Vec3) (c : ℝ) (hc : 0 ≤ c) :
    (v.smul c).length = c * v.length := by
  simp only [Vec3.length, Vec3.smul, Vec3.lengthSq]
  rw [show v.x * c * (v.x * c) + v.y * c * (v.y * c) + v.z * c * (v.z * c) =
        c ^ 2 * (v.x * v.x + v.y * v.y + v.z * v.z) by ring]
  rw [Real.sqrt_mul (sq_nonneg c), Real.sqrt_sq hc]

theorem threeNormalize_smul_pos (v : Vec3) (c : ℝ) (hc : 0 < c) :
    (v.smul c).threeNormalize = v.threeNormalize := by
  by_cases h0 : v.length = 0
  · have hv : v = ⟨0, 0, 0⟩ := (Vec3.length_eq_zero_iff v).mp h0
    subst hv
    rw [show (⟨0, 0, 0⟩ : Vec3).smul c = ⟨0, 0, 0⟩ by simp [Vec3.smul]]
  · have hlen : (v.smul c).length = c * v.length := Vec3.length_smul_of_nonneg v c hc.le
    have h0c : (v.smul c).length ≠ 0 := by
      rw [hlen]; exact mul_ne_zero (ne_of_gt hc) h0
    unfold Vec3.threeNormalize
    rw [if_neg h0c, if_neg h0, hlen]
    have hcne : c ≠ 0 := ne_of_gt hc
    simp only [Vec3.smul, Vec3.mk.injEq]
    refine ⟨?_, ?_, ?_⟩ <;> field_simp <;> ring

/-- C6: the investigation target is exactly the last known player position
when the history is empty or the strength-weighted total of the last five
samples is zero, and otherwise is the current position moved along the
normalized strength-weighted average direction by 3 + suspicion * 5,
pinned to the ground. -/
theorem calculateInvestigationTarget_spec (L : Louis)
    (hlev : ∀ s ∈ L.suspicionHistory, 0 ≤ s.level) :
    (L.suspicionHistory = [] →
      (calculateInvestigationTarget L).investigationTarget = L.lastKnownPlayerPosition) ∧
    (L.suspicionHistory ≠ [] → totalLevel (recent5 L.suspicionHistory) = 0 →
      (calculateInvestigationTarget L).investigationTarget = L.lastKnownPlayerPosition) ∧
    (L.suspicionHistory ≠ [] → totalLevel (recent5 L.suspicionHistory) ≠ 0 →
      (calculateInvestigationTarget L).investigationTarget =
        setGround (L.position.add
          ((weightedDirSum (recent5 L.suspicionHistory)).threeNormalize.smul
            (3 + L.currentSuspicionLevel * 5)))) := by
  refine ⟨?_, ?_, ?_⟩
  · intro he
    simp only [calculateInvestigationTarget]
    rw [if_pos (by simp [he])]
  · intro hne h0
    simp only [calculateInvestigationTarget]
    rw [if_neg (by simpa [List.length_eq_zero] using hne)]
    rw [recent5_def, foldl_add_level, zero_add]
    rw [if_neg (by rw [h0]; norm_num)]
  · intro hne h0
    have hnn : 0 ≤ totalLevel (recent5 L.suspicionHistory) := by
      apply List.sum_nonneg
      intro x hx
      rcases List.mem_map.mp hx with ⟨s, hs, rfl⟩
      exact hlev s (List.drop_subset _ _ hs)
    have hpos : 0 < totalLevel (recent5 L.suspicionHistory) :=
      lt_of_le_of_ne hnn (Ne.symm h0)
    simp only [calculateInvestigationTarget]
    rw [if_neg (by simpa [List.length_eq_zero] using hne)]
    rw [recent5_def, foldl_add_level, zero_add, foldl_add_dir, Vec3.zero_add_vec]
    rw [if_pos hpos]
    rw [threeNormalize_smul_pos _ _ (one_div_pos.mpr hpos)]
    simp [setGround]

/-- Witness for C6: with an empty suspicion history the target is exactly
the last known player position. -/
theorem calculateInvestigationTarget_witness :
    (calculateInvestigationTarget baseLouis).investigationTarget =
      baseLouis.lastKnownPlayerPosition :=
  (calculateInvestigationTarget_spec baseLouis (by simp [baseLouis])).1 rfl

theorem argminLoop_min (pos : Vec3) (l : List Vec3) :
    ∀ (i : ℕ) (acc : ℕ × WithTop ℝ),
      (argminLoop pos l i acc).2 ≤ acc.2 ∧
      ∀ k (hk : k < l.length),
        (argminLoop pos l i acc).2 ≤ (pos.distanceTo (l.get ⟨k, hk⟩) : WithTop ℝ) := by
  induction l with
  | nil =>
      intro i acc
      exact ⟨le_refl _, fun k hk => absurd hk (by simp)⟩
  | cons w t ih =>
      intro i acc
      simp only [argminLoop]
      by_cases hlt : (pos.distanceTo w : WithTop ℝ) < acc.2
      · rw [if_pos hlt]
        obtain ⟨ih1, ih2⟩ := ih (i + 1) (i, (pos.distanceTo w : WithTop ℝ))
        refine ⟨le_trans ih1 (le_of_lt hlt), ?_⟩
        intro k hk
        cases k with
        | zero => exact ih1
        | succ k2 => exact ih2 k2 (Nat.lt_of_succ_lt_succ hk)
      · rw [if_neg hlt]
        obtain ⟨ih1, ih2⟩ := ih (i + 1) acc
        refine ⟨ih1, ?_⟩
        intro k hk
        cases k with
        | zero => exact le_trans ih1 (le_of_not_lt hlt)
        | succ k2 => exact ih2 k2 (Nat.lt_of_succ_lt_succ hk)

theorem argminLoop_result (pos : Vec3) (l : List Vec3) :
    ∀ (i : ℕ) (acc : ℕ × WithTop ℝ),
      argminLoop pos l i acc = acc ∨
      ∃ k, ∃ hk : k < l.length, (argminLoop pos l i acc).1 = i + k ∧
        (argminLoop pos l i acc).2 = (pos.distanceTo (l.get ⟨k, hk⟩) : WithTop ℝ) := by
  induction l with
  | nil =>
      intro i acc
      exact Or.inl rfl
  | cons w t ih =>
      intro i acc
      simp only [argminLoop]
      by_cases hlt : (pos.distanceTo w : WithTop ℝ) < acc.2
      · rw [if_pos hlt]
        rcases ih (i + 1) (i, (pos.distanceTo w : WithTop ℝ)) with h | ⟨k, hk, h1, h2⟩
        · exact Or.inr ⟨0, Nat.succ_pos _, by rw [h]; simp, by rw [h]; rfl⟩
        · exact Or.inr ⟨k + 1, Nat.succ_lt_succ hk, by rw [h1]; omega, h2⟩
      · rw [if_neg hlt]
        rcases ih (i + 1) acc with h | ⟨k, hk, h1, h2⟩
        · exact Or.inl h
        · exact Or.inr ⟨k + 1, Nat.succ_lt_succ hk, by rw [h1]; omega, h2⟩

theorem argminIndex_spec (pos : Vec3) (ws : List Vec3) (hne : ws ≠ []) :
    argminIndex pos ws < ws.length ∧
    ∀ k, k < ws.length →
      pos.distanceTo (ws.getD (argminIndex pos ws) ⟨0, 0, 0⟩) ≤
        pos.distanceTo (ws.getD k ⟨0, 0, 0⟩) := by
  obtain ⟨-, min2⟩ := argminLoop_min pos ws 0 (0, ⊤)
  rcases argminLoop_result pos ws 0 (0, ⊤) with h | ⟨k, hk, h1, h2⟩
  · exfalso
    have h0 : 0 < ws.length := List.length_pos.mpr hne
    have htop := min2 0 h0
    rw [h] at htop
    exact (WithTop.not_top_le_coe _) htop
  · have hidx : argminIndex pos ws = k := by
      unfold argminIndex
      rw [h1]
      omega
    constructor
    · rw [hidx]; exact hk
    · intro j hj
      have hmin := min2 j hj
      rw [h2] at hmin
      have hcoe := WithTop.coe_le_coe.mp hmin
      have e1 : ws.getD (argminIndex pos ws) ⟨0, 0, 0⟩ = ws.get ⟨k, hk⟩ := by
        rw [hidx, List.getD_eq_get?, List.get?_eq_get hk]
        rfl
      have e2 : ws.getD j ⟨0, 0, 0⟩ = ws.get ⟨j, hj⟩ := by
        rw [List.getD_eq_get?, List.get?_eq_get hj]
        rfl
      rw [e1, e2]
      exact hcoe

theorem searchWaypointList_length (center : Vec3) (rand8 : Fin 8 → ℝ) :
    (searchWaypointList center rand8).length = 8 := by
  simp [searchWaypointList]

theorem searchWaypointList_getD (center : Vec3) (rand8 : Fin 8 → ℝ) (i : Fin 8) :
    (searchWaypointList center rand8).getD (i : ℕ) ⟨0, 0, 0⟩ =
      ⟨center.x + Real.cos (((i : ℝ) / 8) * (2 * Real.pi) + rand8 i * 0.5) *
          (6 * (0.5 + 0.5 * ((i : ℝ) / 8))), 0,
       center.z + Real.sin (((i : ℝ) / 8) * (2 * Real.pi) + rand8 i * 0.5) *
          (6 * (0.5 + 0.5 * ((i : ℝ) / 8)))⟩ := by
  have hilt : (i : ℕ) < (searchWaypointList center rand8).length := by
    rw [searchWaypointList_length]; exact i.isLt
  rw [List.getD_eq_getElem?_getD, List.getElem?_eq_getElem hilt, Option.getD_some]
  simp only [searchWaypointList, List.getElem_ofFn, Fin.eta, Vec3.mk.injEq]
  refine ⟨?_, trivial, ?_⟩ <;> ring_nf

/-- C7 amended: waypoint generation produces exactly 8 points whose x and
z follow the spiral formula around the center with the point's own y
pinned to 0 (not the center's y), and the chosen starting index minimizes
the Euclidean distance to the pursuer. -/
theorem generateSearchWaypoints_spec (env : Env) (L : Louis)
    (hj : ∀ i : Fin 8, 0 ≤ env.rand8 i * 0.5 ∧ env.rand8 i * 0.5 < 0.5) :
    (generateSearchWaypoints env L).searchWaypoints.length = 8 ∧
    (∀ i : Fin 8,
      (generateSearchWaypoints env L).searchWaypoints.getD (i : ℕ) ⟨0, 0, 0⟩ =
        ⟨L.lastKnownPlayerPosition.x +
           Real.cos (((i : ℝ) / 8) * (2 * Real.pi) + env.rand8 i * 0.5) *
             (6 * (0.5 + 0.5 * ((i : ℝ) / 8))), 0,
         L.lastKnownPlayerPosition.z +
           Real.sin (((i : ℝ) / 8) * (2 * Real.pi) + env.rand8 i * 0.5) *
             (6 * (0.5 + 0.5 * ((i : ℝ) / 8)))⟩) ∧
    (generateSearchWaypoints env L).currentSearchIndex < 8 ∧
    (∀ j : Fin 8,
      L.position.distanceTo
          ((generateSearchWaypoints env L).searchWaypoints.getD
            (generateSearchWaypoints env L).currentSearchIndex ⟨0, 0, 0⟩) ≤
        L.position.distanceTo
          ((generateSearchWaypoints env L).searchWaypoints.getD (j : ℕ) ⟨0, 0, 0⟩)) := by
  have hws : (generateSearchWaypoints env L).searchWaypoints =
      searchWaypointList L.lastKnownPlayerPosition env.rand8 := rfl
  have hidx : (generateSearchWaypoints env L).currentSearchIndex =
      argminIndex L.position (searchWaypointList L.lastKnownPlayerPosition env.rand8) := rfl
  have hlen := searchWaypointList_length L.lastKnownPlayerPosition env.rand8
  have hne : searchWaypointList L.lastKnownPlayerPosition env.rand8 ≠ [] := by
    intro hemp
    rw [hemp] at hlen
    simp at hlen
  obtain ⟨hlt, hmin⟩ := argminIndex_spec L.position _ hne
  refine ⟨?_, ?_, ?_, ?_⟩
  · rw [hws]; exact hlen
  · intro i
    rw [hws]
    exact searchWaypointList_getD L.lastKnownPlayerPosition env.rand8 i
  · rw [hidx]
    rw [hlen] at hlt
    exact hlt
  · intro j
    rw [hws, hidx]
    exact hmin (j : ℕ) (by rw [hlen]; exact j.isLt)

/-- Witness for C7 amended at zero jitter. -/
theorem generateSearchWaypoints_spec_witness :
    (generateSearchWaypoints baseEnv raisedCenterLouis).searchWaypoints.length = 8 :=
  (generateSearchWaypoints_spec baseEnv raisedCenterLouis
    (by intro i; norm_num [baseEnv])).1

/-- Counterexample for C7 as stated: with a center whose y is 1, the
generated waypoints have y = 0, not center + (cos * r, 0, sin * r), whose
y would be 1. -/
theorem generateSearchWaypoints_claim_counterexample :
    ¬ (∀ (env : Env) (L : Louis),
        (∀ i : Fin 8, 0 ≤ env.rand8 i * 0.5 ∧ env.rand8 i * 0.5 < 0.5) →
        ((generateSearchWaypoints env L).searchWaypoints.length = 8 ∧
         ∀ i : Fin 8,
           (generateSearchWaypoints env L).searchWaypoints.getD (i : ℕ) ⟨0, 0, 0⟩ =
             L.lastKnownPlayerPosition.add
               ⟨Real.cos (((i : ℝ) / 8) * (2 * Real.pi) + env.rand8 i * 0.5) *
                  (6 * (0.5 + 0.5 * ((i : ℝ) / 8))), 0,
                Real.sin (((i : ℝ) / 8) * (2 * Real.pi) + env.rand8 i * 0.5) *
                  (6 * (0.5 + 0.5 * ((i : ℝ) / 8)))⟩)) := by
  intro hclaim
  have h := (hclaim baseEnv raisedCenterLouis (by intro i; norm_num [baseEnv])).2 0
  have hy := congrArg Vec3.y h
  simp [generateSearchWaypoints, searchWaypointList, List.ofFn_succ, List.getD,
        raisedCenterLouis, baseLouis, baseEnv, Vec3.add] at hy

theorem canSeeTarget_eq_true_iff (vc : VisionCone) (fromPosition : Vec3) (fromRotation : ℝ)
    (targetPosition : Vec3) (walls : List Wall) :
    vc.canSeeTarget fromPosition fromRotation targetPosition walls = true ↔
      (visionDistance fromPosition targetPosition ≤ vc.range ∧
       visionAngle fromPosition fromRotation targetPosition ≤ vc.fov / 2 ∧
       visionOccluded fromPosition targetPosition walls = false) := by
  simp only [VisionCone.canSeeTarget, visionDistance, visionAngle, visionOccluded]
  by_cases h1 : (targetPosition.sub fromPosition).length > vc.range
  · rw [if_pos h1]
    simp only [Bool.false_eq_true, false_iff]
    rintro ⟨hle, -, -⟩
    exact absurd h1 (not_lt.mpr hle)
  · rw [if_neg h1]
    by_cases h2 : Vec3.threeAngleTo ⟨Real.sin fromRotation, 0, Real.cos fromRotation⟩
        (targetPosition.sub fromPosition).threeNormalize > vc.fov / 2
    · rw [if_pos h2]
      simp only [Bool.false_eq_true, false_iff]
      rintro ⟨-, hle, -⟩
      exact absurd h2 (not_lt.mpr hle)
    · rw [if_neg h2]
      by_cases h3 : walls.length > 0
      · rw [if_pos h3]
        by_cases h4 : walls.any (fun w =>
            w (fromPosition.add ⟨0, 1.5, 0⟩)
              (targetPosition.sub fromPosition).threeNormalize
              (targetPosition.sub fromPosition).length) = true
        · rw [if_pos h4]
          simp only [Bool.false_eq_true, false_iff]
          rintro ⟨-, -, hocc⟩
          rw [h4] at hocc
          cases hocc
        · rw [if_neg h4]
          simp only [true_iff]
          exact ⟨not_lt.mp h1, not_lt.mp h2, Bool.eq_false_iff.mpr (fun hh => h4 hh)⟩
      · rw [if_neg h3]
        have hnil : walls = [] := List.eq_nil_of_length_eq_zero (by omega)
        subst hnil
        simp only [true_iff]
        exact ⟨not_lt.mp h1, not_lt.mp h2, rfl⟩

/-- C3: the detection strength is 0 whenever the distance exceeds the
range, the angle exceeds half the field of view, or an occluder blocks the
eye-height ray; otherwise it is the clamped product of the distance and
angle factors, and in all cases it lies in the interval from 0 to 1. -/
theorem getDetectionLevel_spec (vc : VisionCone) (hr : 0 < vc.range) (hf : 0 < vc.fov)
    (fromPosition : Vec3) (fromRotation : ℝ) (targetPosition : Vec3) (walls : List Wall) :
    (visionDistance fromPosition targetPosition > vc.range →
      vc.getDetectionLevel fromPosition fromRotation targetPosition walls = 0) ∧
    (visionAngle fromPosition fromRotation targetPosition > vc.fov / 2 →
      vc.getDetectionLevel fromPosition fromRotation targetPosition walls = 0) ∧
    (visionOccluded fromPosition targetPosition walls = true →
      vc.getDetectionLevel fromPosition fromRotation targetPosition walls = 0) ∧
    (visionDistance fromPosition targetPosition ≤ vc.range →
      visionAngle fromPosition fromRotation targetPosition ≤ vc.fov / 2 →
      visionOccluded fromPosition targetPosition walls = false →
      vc.getDetectionLevel fromPosition fromRotation targetPosition walls =
        max 0 (min 1 ((1 - visionDistance fromPosition targetPosition / vc.range) *
          (1 - visionAngle fromPosition fromRotation targetPosition / (vc.fov / 2))))) ∧
    0 ≤ vc.getDetectionLevel fromPosition fromRotation targetPosition walls ∧
    vc.getDetectionLevel fromPosition fromRotation targetPosition walls ≤ 1 := by
  refine ⟨?_, ?_, ?_, ?_, ?_, ?_⟩
  · intro h
    unfold VisionCone.getDetectionLevel
    rw [if_neg (fun hT => absurd h (not_lt.mpr ((canSeeTarget_eq_true_iff vc fromPosition
      fromRotation targetPosition walls).mp hT).1))]
  · intro h
    unfold VisionCone.getDetectionLevel
    rw [if_neg (fun hT => absurd h (not_lt.mpr ((canSeeTarget_eq_true_iff vc fromPosition
      fromRotation targetPosition walls).mp hT).2.1))]
  · intro h
    unfold VisionCone.getDetectionLevel
    rw [if_neg (fun hT => by
      have hocc := ((canSeeTarget_eq_true_iff vc fromPosition fromRotation targetPosition
        walls).mp hT).2.2
      rw [h] at hocc
      cases hocc)]
  · intro hd ha hocc
    unfold VisionCone.getDetectionLevel
    rw [if_pos ((canSeeTarget_eq_true_iff vc fromPosition fromRotation targetPosition
      walls).mpr ⟨hd, ha, hocc⟩)]
    simp only [visionDistance, visionAngle]
  · unfold VisionCone.getDetectionLevel
    split
    · exact le_max_left 0 _
    · exact le_refl 0
  · unfold VisionCone.getDetectionLevel
    split
    · exact max_le (by norm_num) (min_le_left 1 _)
    · norm_num

/-- Witness for C3: a target 20 units straight ahead is outside the
15-unit range, so the pursuer cone reports 0. -/
theorem getDetectionLevel_spec_witness :
    louisVisionCone.getDetectionLevel ⟨0, 0, 0⟩ 0 ⟨0, 0, 20⟩ [] = 0 := by
  have hr : (0 : ℝ) < louisVisionCone.range := by norm_num [louisVisionCone]
  have hf : (0 : ℝ) < louisVisionCone.fov := by
    simp only [louisVisionCone, degToRad]
    positivity
  have hdist : visionDistance ⟨0, 0, 0⟩ ⟨0, 0, 20⟩ = 20 := by
    simp only [visionDistance, Vec3.sub, Vec3.length, Vec3.lengthSq]
    rw [show ((20 : ℝ) - 0) * (20 - 0) = 20 ^ 2 by norm_num]
    rw [show ((0 : ℝ) - 0) * (0 - 0) + (0 - 0) * (0 - 0) + 20 ^ 2 = 20 ^ 2 by ring]
    exact Real.sqrt_sq (by norm_num)
  exact (getDetectionLevel_spec louisVisionCone hr hf ⟨0, 0, 0⟩ 0 ⟨0, 0, 20⟩ []).1
    (by rw [hdist]; norm_num [louisVisionCone])

/-- C4: evaluation at the failing input of the containment claim.  With
the box addBoxCollider(10,10,10,5,0,5) and the sphere of radius 0.3
resting at the box center, the resolver returns (5, 5.3, 5), which is
still strictly inside the box: its distance to the closest box point is 0,
far below the actor radius. -/
theorem resolvePlayerCollision_penetration :
    sphereStrictlyInsideBox bigBox boxCenterPoint 0.3 ∧
    resolvePlayerCollision [bigBox] boxCenterPoint boxCenterPoint 0.3 = ⟨5, 5.3, 5⟩ ∧
    Vec3.distanceTo ⟨5, 5.3, 5⟩ (closestPointOnBox bigBox ⟨5, 5.3, 5⟩) < 0.3 := by
  have hclose1 : closestPointOnBox bigBox ⟨5, 5, 5⟩ = ⟨5, 5, 5⟩ := by
    simp only [closestPointOnBox, bigBox]
    norm_num [min_def, max_def]
  have hclose2 : closestPointOnBox bigBox ⟨5, 5.3, 5⟩ = ⟨5, 5.3, 5⟩ := by
    simp only [closestPointOnBox, bigBox]
    norm_num [min_def, max_def]
  have hd1 : Vec3.distanceTo (⟨5, 5, 5⟩ : Vec3) ⟨5, 5, 5⟩ = 0 := by
    simp [Vec3.distanceTo, Vec3.sub, Vec3.length, Vec3.lengthSq]
  have hd2 : Vec3.distanceTo (⟨5, 5.3, 5⟩ : Vec3) ⟨5, 5.3, 5⟩ = 0 := by
    simp [Vec3.distanceTo, Vec3.sub, Vec3.length, Vec3.lengthSq]
  have hcheck1 : checkSphereCollision [bigBox] ⟨5, 5, 5⟩ 0.3 = ⟨true, ⟨0, 1, 0⟩, 0.3⟩ := by
    simp only [checkSphereCollision, hclose1, hd1]
    rw [if_pos (by norm_num)]
    norm_num
  have hcheck2 : checkSphereCollision [bigBox] ⟨5, 5.3, 5⟩ 0.3 = ⟨true, ⟨0, 1, 0⟩, 0.3⟩ := by
    simp only [checkSphereCollision, hclose2, hd2]
    rw [if_pos (by norm_num)]
    norm_num
  have hpush : (⟨5, 5, 5⟩ : Vec3).add ((⟨0, 1, 0⟩ : Vec3).smul 0.3) = ⟨5, 5.3, 5⟩ := by
    norm_num [Vec3.add, Vec3.smul]
  refine ⟨by norm_num [sphereStrictlyInsideBox, bigBox, boxCenterPoint], ?_, ?_⟩
  · show resolvePlayerCollision [bigBox] boxCenterPoint boxCenterPoint 0.3 = ⟨5, 5.3, 5⟩
    rw [show boxCenterPoint = (⟨5, 5, 5⟩ : Vec3) from rfl]
    simp only [resolvePlayerCollision, hcheck1, hpush]
    norm_num [hcheck2]
  · rw [hclose2, hd2]
    norm_num

end

end OfficeGame
